import Mathlib

/-!
Shallow embedding of `model.py` (StarGAN-VC2 style generator and
discriminator).  Tensors of shape (N, C, H, W) are embedded as functions
`Fin N → Fin C → Fin H → Fin W → ℚ`; the real-valued nonlinearities
`sqrt` and `sigmoid` that the numerical library supplies are abstracted
into a record of primitive scalar functions, since every claim under
verification is structural (shapes, composition order, parameter usage)
and holds for every choice of these primitives.
-/

/-- Primitive scalar functions provided by the numerical library. -/
structure Prims where
  sqrt : ℚ → ℚ
  sigmoid : ℚ → ℚ

/-- A rank-2 tensor of shape (N, A). -/
abbrev Tensor2 (N A : ℕ) := Fin N → Fin A → ℚ

/-- A rank-3 tensor of shape (N, C, T). -/
abbrev Tensor3 (N C T : ℕ) := Fin N → Fin C → Fin T → ℚ

/-- A rank-4 tensor of shape (N, C, H, W). -/
abbrev Tensor4 (N C H W : ℕ) := Fin N → Fin C → Fin H → Fin W → ℚ

/-- Output length of a convolution along one dimension:
`floor((H + 2*p - k)/s) + 1`, computed over ℤ so that it is total. -/
def convDim (H p k s : ℕ) : ℕ := (((H : ℤ) + 2 * p - k) / s + 1).toNat

/-- Output length of a transposed convolution along one dimension:
`(H - 1)*s + k - 2*p`, computed over ℤ so that it is total. -/
def convTDim (H s k p : ℕ) : ℕ := (((H : ℤ) - 1) * s + k - 2 * p).toNat

/-- Read a rank-4 tensor at possibly out-of-range spatial coordinates,
yielding the zero padding value outside the tensor. -/
def getPad4 {N C H W : ℕ} (x : Tensor4 N C H W) (n : Fin N) (c : Fin C)
    (i j : ℤ) : ℚ :=
  if h : 0 ≤ i ∧ i < (H : ℤ) ∧ 0 ≤ j ∧ j < (W : ℤ) then
    x n c ⟨i.toNat, by omega⟩ ⟨j.toNat, by omega⟩
  else 0

/-- Read a rank-3 tensor at a possibly out-of-range time coordinate,
yielding the zero padding value outside the tensor. -/
def getPad3 {N C T : ℕ} (x : Tensor3 N C T) (n : Fin N) (c : Fin C)
    (t : ℤ) : ℚ :=
  if h : 0 ≤ t ∧ t < (T : ℤ) then x n c ⟨t.toNat, by omega⟩ else 0

/-- `nn.Conv2d` with weight layout (out-channels, in-channels, kH, kW),
stride (sh, sw), zero padding (ph, pw) and bias. -/
def conv2d {N Ci H W : ℕ} (Co KH KW : ℕ)
    (w : Fin Co → Fin Ci → Fin KH → Fin KW → ℚ) (b : Fin Co → ℚ)
    (sh sw ph pw : ℕ) (x : Tensor4 N Ci H W) :
    Tensor4 N Co (convDim H ph KH sh) (convDim W pw KW sw) :=
  fun n o i j =>
    b o + ∑ c : Fin Ci, ∑ u : Fin KH, ∑ v : Fin KW,
      w o c u v *
        getPad4 x n c ((i : ℤ) * sh + u - ph) ((j : ℤ) * sw + v - pw)

/-- `nn.Conv2d` constructed with `bias=False`: the bias term is absent,
i.e. identically zero. -/
def conv2dNB {N Ci H W : ℕ} (Co KH KW : ℕ)
    (w : Fin Co → Fin Ci → Fin KH → Fin KW → ℚ)
    (sh sw ph pw : ℕ) (x : Tensor4 N Ci H W) :
    Tensor4 N Co (convDim H ph KH sh) (convDim W pw KW sw) :=
  conv2d Co KH KW w (fun _ => 0) sh sw ph pw x

/-- `nn.ConvTranspose2d` with weight layout (in-channels, out-channels,
kH, kW), constructed with `bias=False` (as at every use site). -/
def convT2d {N Ci H W : ℕ} (Co KH KW : ℕ)
    (w : Fin Ci → Fin Co → Fin KH → Fin KW → ℚ)
    (sh sw ph pw : ℕ) (x : Tensor4 N Ci H W) :
    Tensor4 N Co (convTDim H sh KH ph) (convTDim W sw KW pw) :=
  fun n o i j =>
    ∑ c : Fin Ci, ∑ a : Fin H, ∑ bb : Fin W, ∑ u : Fin KH, ∑ v : Fin KW,
      if (i : ℤ) + ph = (a : ℤ) * sh + u ∧ (j : ℤ) + pw = (bb : ℤ) * sw + v
      then w c o u v * x n c a bb else 0

/-- `nn.Conv1d` with weight layout (out-channels, in-channels, k). -/
def conv1d {N Ci T : ℕ} (Co K : ℕ)
    (w : Fin Co → Fin Ci → Fin K → ℚ) (b : Fin Co → ℚ)
    (s p : ℕ) (x : Tensor3 N Ci T) : Tensor3 N Co (convDim T p K s) :=
  fun n o t =>
    b o + ∑ c : Fin Ci, ∑ u : Fin K,
      w o c u * getPad3 x n c ((t : ℤ) * s + u - p)

/-- `nn.Conv1d` constructed with `bias=False`. -/
def conv1dNB {N Ci T : ℕ} (Co K : ℕ)
    (w : Fin Co → Fin Ci → Fin K → ℚ)
    (s p : ℕ) (x : Tensor3 N Ci T) : Tensor3 N Co (convDim T p K s) :=
  conv1d Co K w (fun _ => 0) s p x

/-- `nn.Linear` with weight layout (out-features, in-features). -/
def linear {N I : ℕ} (O : ℕ) (w : Fin O → Fin I → ℚ) (b : Fin O → ℚ)
    (x : Tensor2 N I) : Tensor2 N O :=
  fun n o => b o + ∑ i : Fin I, w o i * x n i

/-- Per-sample per-channel mean of a rank-4 tensor over both spatial
dimensions. -/
def mean4 {N C H W : ℕ} (x : Tensor4 N C H W) (n : Fin N) (c : Fin C) : ℚ :=
  (∑ i : Fin H, ∑ j : Fin W, x n c i j) / (H * W : ℕ)

/-- Per-sample per-channel biased variance of a rank-4 tensor over both
spatial dimensions. -/
def var4 {N C H W : ℕ} (x : Tensor4 N C H W) (n : Fin N) (c : Fin C) : ℚ :=
  (∑ i : Fin H, ∑ j : Fin W,
    (x n c i j - mean4 x n c) * (x n c i j - mean4 x n c)) / (H * W : ℕ)

/-- Per-sample per-channel mean of a rank-3 tensor over the time
dimension (dim 2). -/
def mean3 {N C T : ℕ} (x : Tensor3 N C T) (n : Fin N) (c : Fin C) : ℚ :=
  (∑ t : Fin T, x n c t) / (T : ℕ)

/-- Per-sample per-channel biased variance of a rank-3 tensor over the
time dimension (dim 2). -/
def var3 {N C T : ℕ} (x : Tensor3 N C T) (n : Fin N) (c : Fin C) : ℚ :=
  (∑ t : Fin T, (x n c t - mean3 x n c) * (x n c t - mean3 x n c)) / (T : ℕ)

/-- `nn.InstanceNorm2d` with `affine=True` (eps = 1e-5, no running
statistics, as constructed in the source). -/
def instanceNorm2d {N C H W : ℕ} (P : Prims) (g bt : Fin C → ℚ)
    (x : Tensor4 N C H W) : Tensor4 N C H W :=
  fun n c i j =>
    g c * ((x n c i j - mean4 x n c) / P.sqrt (var4 x n c + 1e-5)) + bt c

/-- `nn.InstanceNorm1d` with `affine=True` (eps = 1e-5). -/
def instanceNorm1d {N C T : ℕ} (P : Prims) (g bt : Fin C → ℚ)
    (x : Tensor3 N C T) : Tensor3 N C T :=
  fun n c t =>
    g c * ((x n c t - mean3 x n c) / P.sqrt (var3 x n c + 1e-5)) + bt c

/-- Embedding of a channel index into the lower half of a doubled
channel dimension. -/
def finLow (C : ℕ) (c : Fin C) : Fin (2 * C) := ⟨c.val, by omega⟩

/-- Embedding of a channel index into the upper half of a doubled
channel dimension. -/
def finHigh (C : ℕ) (c : Fin C) : Fin (2 * C) := ⟨c.val + C, by omega⟩

/-- `nn.GLU(dim=1)` on a rank-4 tensor: the first half of the channels
gates the sigmoid of the second half. -/
def glu4 {N H W : ℕ} (sg : ℚ → ℚ) (Ch : ℕ) (x : Tensor4 N (2 * Ch) H W) :
    Tensor4 N Ch H W :=
  fun n c i j => x n (finLow Ch c) i j * sg (x n (finHigh Ch c) i j)

/-- `nn.GLU(dim=1)` on a rank-3 tensor. -/
def glu3 {N T : ℕ} (sg : ℚ → ℚ) (Ch : ℕ) (x : Tensor3 N (2 * Ch) T) :
    Tensor3 N Ch T :=
  fun n c t => x n (finLow Ch c) t * sg (x n (finHigh Ch c) t)

/-- `nn.PixelShuffle(2)`: rearranges groups of 4 channels into 2×2
spatial blocks. -/
def pixelShuffle2 {N H W : ℕ} (Cp : ℕ) (x : Tensor4 N (4 * Cp) H W) :
    Tensor4 N Cp (2 * H) (2 * W) :=
  fun n c i j =>
    x n ⟨4 * c.val + 2 * (i.val % 2) + j.val % 2, by omega⟩
      ⟨i.val / 2, by omega⟩ ⟨j.val / 2, by omega⟩

/-- Elementwise map of a scalar function over a rank-4 tensor. -/
def tmap4 {N C H W : ℕ} (f : ℚ → ℚ) (x : Tensor4 N C H W) :
    Tensor4 N C H W :=
  fun n c i j => f (x n c i j)

/-- `torch.cat((c, c_), dim=1)` on rank-2 tensors. -/
def cat2 {N A B : ℕ} (c : Tensor2 N A) (c_ : Tensor2 N B) :
    Tensor2 N (A + B) :=
  fun n j => if h : j.val < A then c n ⟨j.val, h⟩ else c_ n ⟨j.val - A, by omega⟩

/-- Reindex a rank-2 tensor along an equality of feature dimensions. -/
def cast2 {N A B : ℕ} (h : A = B) (x : Tensor2 N A) : Tensor2 N B :=
  fun n j => x n (Fin.cast h.symm j)

/-- Reindex a rank-3 tensor along equalities of its dimensions. -/
def cast3 {N C C' T T' : ℕ} (hC : C = C') (hT : T = T')
    (x : Tensor3 N C T) : Tensor3 N C' T' :=
  fun n c t => x n (Fin.cast hC.symm c) (Fin.cast hT.symm t)

/-- Reindex a rank-4 tensor along equalities of its dimensions. -/
def cast4 {N C C' H H' W W' : ℕ} (hC : C = C') (hH : H = H') (hW : W = W')
    (x : Tensor4 N C H W) : Tensor4 N C' H' W' :=
  fun n c i j =>
    x n (Fin.cast hC.symm c) (Fin.cast hH.symm i) (Fin.cast hW.symm j)

/-- Sum pooling over both spatial dimensions (`torch.sum(x, dim=(2,3))`). -/
def sumPool {N C H W : ℕ} (x : Tensor4 N C H W) : Tensor2 N C :=
  fun n c => ∑ i : Fin H, ∑ j : Fin W, x n c i j

/-- Core of `Tensor.view`: reinterpret the row-major flat order of a
rank-4 tensor as a rank-3 tensor, given that the per-sample sizes agree. -/
def view43Core {N C H W : ℕ} (Cp Tp : ℕ) (x : Tensor4 N C H W)
    (hs : C * (H * W) = Cp * Tp) : Tensor3 N Cp Tp :=
  fun n c t =>
    have h1 : c.val * Tp + t.val < C * (H * W) := by
      have hc : c.val + 1 ≤ Cp := c.isLt
      calc c.val * Tp + t.val < c.val * Tp + Tp := by omega
        _ = (c.val + 1) * Tp := by ring
        _ ≤ Cp * Tp := Nat.mul_le_mul_right Tp hc
        _ = C * (H * W) := hs.symm
    have hHW : 0 < H * W := by
      rcases Nat.eq_zero_or_pos (H * W) with h0 | h0
      · rw [h0, Nat.mul_zero] at h1; omega
      · exact h0
    have hW : 0 < W := by
      rcases Nat.eq_zero_or_pos W with h0 | h0
      · rw [h0, Nat.mul_zero] at hHW; omega
      · exact h0
    x n ⟨(c.val * Tp + t.val) / (H * W), by
          rw [Nat.mul_comm C (H * W)] at h1
          exact Nat.div_lt_of_lt_mul h1⟩
      ⟨(c.val * Tp + t.val) % (H * W) / W, by
          have hm : (c.val * Tp + t.val) % (H * W) < H * W :=
            Nat.mod_lt _ hHW
          exact Nat.div_lt_of_lt_mul (by rw [Nat.mul_comm W H]; exact hm)⟩
      ⟨(c.val * Tp + t.val) % (H * W) % W, Nat.mod_lt _ hW⟩

/-- Core of `Tensor.view`: reinterpret the row-major flat order of a
rank-3 tensor as a rank-4 tensor, given that the per-sample sizes agree. -/
def view34Core {N C T : ℕ} (Cp Hp Wp : ℕ) (x : Tensor3 N C T)
    (hs : C * T = Cp * (Hp * Wp)) : Tensor4 N Cp Hp Wp :=
  fun n c i j =>
    have hin : i.val * Wp + j.val < Hp * Wp := by
      have hi : i.val + 1 ≤ Hp := i.isLt
      calc i.val * Wp + j.val < i.val * Wp + Wp := by omega
        _ = (i.val + 1) * Wp := by ring
        _ ≤ Hp * Wp := Nat.mul_le_mul_right Wp hi
    have h1 : c.val * (Hp * Wp) + (i.val * Wp + j.val) < C * T := by
      have hc : c.val + 1 ≤ Cp := c.isLt
      calc c.val * (Hp * Wp) + (i.val * Wp + j.val)
          < c.val * (Hp * Wp) + Hp * Wp := by omega
        _ = (c.val + 1) * (Hp * Wp) := by ring
        _ ≤ Cp * (Hp * Wp) := Nat.mul_le_mul_right (Hp * Wp) hc
        _ = C * T := hs.symm
    have hT : 0 < T := by
      rcases Nat.eq_zero_or_pos T with h0 | h0
      · rw [h0, Nat.mul_zero] at h1; omega
      · exact h0
    x n ⟨(c.val * (Hp * Wp) + (i.val * Wp + j.val)) / T, by
          rw [Nat.mul_comm C T] at h1
          exact Nat.div_lt_of_lt_mul h1⟩
      ⟨(c.val * (Hp * Wp) + (i.val * Wp + j.val)) % T, Nat.mod_lt _ hT⟩

/-- `x.contiguous().view(-1, Cp, Tp)` at fixed batch: succeeds exactly
when the per-sample sizes agree (under the generator's typed
precondition the batch inferred by the library for `-1` equals N, so
this is the view's success condition). -/
def view43 {N C H W : ℕ} (Cp Tp : ℕ) (x : Tensor4 N C H W) :
    Option (Tensor3 N Cp Tp) :=
  if hs : C * (H * W) = Cp * Tp then some (view43Core Cp Tp x hs) else none

/-- `x.view(-1, Cp, Hp, Wp)` at fixed batch. -/
def view34 {N C T : ℕ} (Cp Hp Wp : ℕ) (x : Tensor3 N C T) :
    Option (Tensor4 N Cp Hp Wp) :=
  if hs : C * T = Cp * (Hp * Wp) then some (view34Core Cp Hp Wp x hs)
  else none

/-- Parameters of `DownsampleBlock`: two convolutions built with
`bias=False`, each followed by an affine `InstanceNorm2d` and a GLU. -/
structure DownsampleBlockParams (dimIn dimOut KH KW : ℕ) where
  conv_layer_w : Fin dimOut → Fin dimIn → Fin KH → Fin KW → ℚ
  conv_layer_norm_g : Fin dimOut → ℚ
  conv_layer_norm_b : Fin dimOut → ℚ
  conv_gated_w : Fin dimOut → Fin dimIn → Fin KH → Fin KW → ℚ
  conv_gated_norm_g : Fin dimOut → ℚ
  conv_gated_norm_b : Fin dimOut → ℚ

/-- `DownsampleBlock.forward`:
`conv_layer(x) * sigmoid(conv_gated(x))`, each branch being
conv → instance norm → GLU.  `Ch` is half of `dim_out` (the GLU halves
the channel dimension). -/
def dsForward (P : Prims) (Ch : ℕ) {N dimIn H W KH KW : ℕ}
    (B : DownsampleBlockParams dimIn (2 * Ch) KH KW) (sh sw ph pw : ℕ)
    (x : Tensor4 N dimIn H W) :
    Tensor4 N Ch (convDim H ph KH sh) (convDim W pw KW sw) :=
  glu4 P.sigmoid Ch
      (instanceNorm2d P B.conv_layer_norm_g B.conv_layer_norm_b
        (conv2dNB (2 * Ch) KH KW B.conv_layer_w sh sw ph pw x)) *
    tmap4 P.sigmoid
      (glu4 P.sigmoid Ch
        (instanceNorm2d P B.conv_gated_norm_g B.conv_gated_norm_b
          (conv2dNB (2 * Ch) KH KW B.conv_gated_w sh sw ph pw x)))

/-- Parameters of `UpSampleBlock`: two transposed convolutions built
with `bias=False`, each followed by `PixelShuffle(2)` and a GLU. -/
structure UpSampleBlockParams (dimIn dimOut KH KW : ℕ) where
  conv_layer_w : Fin dimIn → Fin dimOut → Fin KH → Fin KW → ℚ
  conv_gated_w : Fin dimIn → Fin dimOut → Fin KH → Fin KW → ℚ

/-- `UpSampleBlock.forward`:
`conv_layer(x) * sigmoid(conv_gated(x))`, each branch being transposed
conv → pixel shuffle → GLU.  `Ch` is `dim_out/8` (pixel shuffle divides
channels by 4, the GLU halves them). -/
def usForward (P : Prims) (Ch : ℕ) {N dimIn H W KH KW : ℕ}
    (U : UpSampleBlockParams dimIn (4 * (2 * Ch)) KH KW) (sh sw ph pw : ℕ)
    (x : Tensor4 N dimIn H W) :
    Tensor4 N Ch (2 * convTDim H sh KH ph) (2 * convTDim W sw KW pw) :=
  glu4 P.sigmoid Ch
      (pixelShuffle2 (2 * Ch)
        (convT2d (4 * (2 * Ch)) KH KW U.conv_layer_w sh sw ph pw x)) *
    tmap4 P.sigmoid
      (glu4 P.sigmoid Ch
        (pixelShuffle2 (2 * Ch)
          (convT2d (4 * (2 * Ch)) KH KW U.conv_gated_w sh sw ph pw x)))

/-- Parameters of `AdaptiveInstanceNormalization`: the single linear
layer `fc : style_num → 2*dim_in`. -/
structure AdaINParams (dimIn styleNum : ℕ) where
  fc_w : Fin (2 * dimIn) → Fin styleNum → ℚ
  fc_b : Fin (2 * dimIn) → ℚ

/-- `AdaptiveInstanceNormalization.forward`: `fc(c)` is chunked into
`gamma` (lower half) and `beta` (upper half) along dim 1, and the
instance-normalized features are scaled by `1 + gamma` and shifted by
`beta` (eps = 1e-8 inside the square root). -/
def adainForward (sq : ℚ → ℚ) (C : ℕ) {N S T : ℕ} (A : AdaINParams C S)
    (x : Tensor3 N C T) (c : Tensor2 N S) : Tensor3 N C T :=
  fun n ch t =>
    (1 + linear (2 * C) A.fc_w A.fc_b c n (finLow C ch)) *
        (x n ch t - mean3 x n ch) / sq (var3 x n ch + 1e-8) +
      linear (2 * C) A.fc_w A.fc_b c n (finHigh C ch)

/-- Parameters of `ConditionalInstanceNormalisation`: two linear layers
producing the scale and the shift. -/
structure CINParams (dimIn styleNum : ℕ) where
  gamma_w : Fin dimIn → Fin styleNum → ℚ
  gamma_b : Fin dimIn → ℚ
  beta_w : Fin dimIn → Fin styleNum → ℚ
  beta_b : Fin dimIn → ℚ

/-- `ConditionalInstanceNormalisation.forward`:
`(x - u)/std * gamma(c) + beta(c)` (eps = 1e-8 inside the square root). -/
def cinForward (sq : ℚ → ℚ) (C : ℕ) {N S T : ℕ} (R : CINParams C S)
    (x : Tensor3 N C T) (c : Tensor2 N S) : Tensor3 N C T :=
  fun n ch t =>
    (x n ch t - mean3 x n ch) / sq (var3 x n ch + 1e-8) *
        linear C R.gamma_w R.gamma_b c n ch +
      linear C R.beta_w R.beta_b c n ch

/-- Parameters of `ResidualBlock` at the hyperparameters the repository
instantiates it with everywhere: `dim_in=256`, `dim_out=512`,
`kernel_size=5`, `stride=1`, `padding=2` (the `Conv1d` keeps its default
bias).  Only `styleNum` varies with `num_speakers`. -/
structure ResidualBlockParams (styleNum : ℕ) where
  conv_layer_w : Fin 512 → Fin 256 → Fin 5 → ℚ
  conv_layer_b : Fin 512 → ℚ
  adain : AdaINParams 512 styleNum

/-- `ResidualBlock.forward`: `x + GLU(AdaIN(Conv1d(x), c_))`. -/
def resForward (P : Prims) {S N T : ℕ} (R : ResidualBlockParams S)
    (x : Tensor3 N 256 T) (c_ : Tensor2 N S) : Tensor3 N 256 T :=
  let x1 : Tensor3 N 512 T :=
    cast3 rfl (by simp [convDim]; omega)
      (conv1d 512 5 R.conv_layer_w R.conv_layer_b 1 2 x)
  let x2 := adainForward P.sqrt 512 R.adain x1 c_
  let x3 := glu3 P.sigmoid 256 x2
  x + x3

/-- Parameters of `Generator` (`num_speakers = ns`): initial conv+GLU,
two down-sample blocks, down-conversion (bias-free Conv1d + affine
InstanceNorm1d), nine residual blocks with `style_num = ns*2`,
up-conversion (bias-free Conv1d), two up-sample blocks and the bias-free
output convolution. -/
structure GeneratorParams (ns : ℕ) where
  conv_layer_1_w : Fin 128 → Fin 1 → Fin 5 → Fin 15 → ℚ
  conv_layer_1_b : Fin 128 → ℚ
  down_sample_1 : DownsampleBlockParams 64 256 5 5
  down_sample_2 : DownsampleBlockParams 128 512 5 5
  down_conversion_w : Fin 256 → Fin 2304 → Fin 1 → ℚ
  down_conversion_norm_g : Fin 256 → ℚ
  down_conversion_norm_b : Fin 256 → ℚ
  residual_1 : ResidualBlockParams (ns * 2)
  residual_2 : ResidualBlockParams (ns * 2)
  residual_3 : ResidualBlockParams (ns * 2)
  residual_4 : ResidualBlockParams (ns * 2)
  residual_5 : ResidualBlockParams (ns * 2)
  residual_6 : ResidualBlockParams (ns * 2)
  residual_7 : ResidualBlockParams (ns * 2)
  residual_8 : ResidualBlockParams (ns * 2)
  residual_9 : ResidualBlockParams (ns * 2)
  up_conversion_w : Fin 2304 → Fin 256 → Fin 1 → ℚ
  up_sample_1 : UpSampleBlockParams 256 1024 5 5
  up_sample_2 : UpSampleBlockParams 128 512 5 5
  out_w : Fin 1 → Fin 64 → Fin 5 → Fin 15 → ℚ

/-- The bottleneck of `Generator.forward` exactly as the source writes
it: `residual_1`, then `residual_2`, then `residual_1` seven more times
(`residual_3` … `residual_9` are constructed but never invoked). -/
def Generator.bottleneck (P : Prims) {ns N T : ℕ} (G : GeneratorParams ns)
    (x : Tensor3 N 256 T) (co : Tensor2 N (ns * 2)) : Tensor3 N 256 T :=
  let r1 := resForward P G.residual_1 x co
  let r2 := resForward P G.residual_2 r1 co
  let r3 := resForward P G.residual_1 r2 co
  let r4 := resForward P G.residual_1 r3 co
  let r5 := resForward P G.residual_1 r4 co
  let r6 := resForward P G.residual_1 r5 co
  let r7 := resForward P G.residual_1 r6 co
  let r8 := resForward P G.residual_1 r7 co
  resForward P G.residual_1 r8 co

/-- `Generator.forward` up to (and including) `self.out`, i.e. the
36-row pre-output, before the final crop `out[:, :, :-1, :]`.  The two
`view` reshapes are the checked operations; everything else is total.
The input is typed at the precondition height 36 and width `4*k`. -/
def Generator.preOut (P : Prims) {ns N k : ℕ} (G : GeneratorParams ns)
    (x : Tensor4 N 1 36 (4 * k)) (c c_ : Tensor2 N ns) :
    Option (Tensor4 N 1 36 (4 * k)) :=
  let c_onehot : Tensor2 N (ns * 2) := cast2 (by omega) (cat2 c c_)
  let x1 : Tensor4 N 64 36 (4 * k) :=
    cast4 rfl (by decide) (by simp only [convDim]; omega)
      (glu4 P.sigmoid 64
        (conv2d 128 5 15 G.conv_layer_1_w G.conv_layer_1_b 1 1 2 7 x))
  let x2 : Tensor4 N 128 18 (2 * k) :=
    cast4 rfl (by decide) (by simp only [convDim]; omega)
      (dsForward P 128 G.down_sample_1 2 2 2 2 x1)
  let x3 : Tensor4 N 256 9 k :=
    cast4 rfl (by decide) (by simp only [convDim]; omega)
      (dsForward P 256 G.down_sample_2 2 2 2 2 x2)
  (view43 2304 k x3).bind (fun xv =>
    let x4 : Tensor3 N 256 k :=
      cast3 rfl (by simp only [convDim]; omega)
        (conv1dNB 256 1 G.down_conversion_w 1 0 xv)
    let x5 :=
      instanceNorm1d P G.down_conversion_norm_g G.down_conversion_norm_b x4
    let x6 := Generator.bottleneck P G x5 c_onehot
    let x7 : Tensor3 N 2304 k :=
      cast3 rfl (by simp only [convDim]; omega)
        (conv1dNB 2304 1 G.up_conversion_w 1 0 x6)
    (view34 256 9 k x7).map (fun xw =>
      let u1 : Tensor4 N 128 18 (2 * k) :=
        cast4 rfl (by decide) (by simp only [convTDim]; omega)
          (usForward P 128 G.up_sample_1 1 1 2 2 xw)
      let u2 : Tensor4 N 64 36 (4 * k) :=
        cast4 rfl (by decide) (by simp only [convTDim]; omega)
          (usForward P 64 G.up_sample_2 1 1 2 2 u1)
      cast4 rfl (by decide) (by simp only [convDim]; omega)
        (conv2dNB 1 5 15 G.out_w 1 1 2 7 u2)))

/-- The crop `out[:, :, :-1, :]`: drop the last row of dimension 2. -/
def cropLastRow {N C H W : ℕ} (x : Tensor4 N C (H + 1) W) :
    Tensor4 N C H W :=
  fun n c h w => x n c h.castSucc w

/-- `Generator.forward`: the pre-output followed by the crop
`out[:, :, :-1, :]`. -/
def Generator.forward (P : Prims) {ns N k : ℕ} (G : GeneratorParams ns)
    (x : Tensor4 N 1 36 (4 * k)) (c c_ : Tensor2 N ns) :
    Option (Tensor4 N 1 35 (4 * k)) :=
  (Generator.preOut P G x c c_).map cropLastRow

/-- The same pipeline as `Generator.preOut`, with the two reshapes
discharged by their (always satisfiable, under the typed precondition)
size-consistency proofs rather than checked at run time. -/
def Generator.preOutTotal (P : Prims) {ns N k : ℕ} (G : GeneratorParams ns)
    (x : Tensor4 N 1 36 (4 * k)) (c c_ : Tensor2 N ns) :
    Tensor4 N 1 36 (4 * k) :=
  let c_onehot : Tensor2 N (ns * 2) := cast2 (by omega) (cat2 c c_)
  let x1 : Tensor4 N 64 36 (4 * k) :=
    cast4 rfl (by decide) (by simp only [convDim]; omega)
      (glu4 P.sigmoid 64
        (conv2d 128 5 15 G.conv_layer_1_w G.conv_layer_1_b 1 1 2 7 x))
  let x2 : Tensor4 N 128 18 (2 * k) :=
    cast4 rfl (by decide) (by simp only [convDim]; omega)
      (dsForward P 128 G.down_sample_1 2 2 2 2 x1)
  let x3 : Tensor4 N 256 9 k :=
    cast4 rfl (by decide) (by simp only [convDim]; omega)
      (dsForward P 256 G.down_sample_2 2 2 2 2 x2)
  let xv := view43Core 2304 k x3 (by ring)
  let x4 : Tensor3 N 256 k :=
    cast3 rfl (by simp only [convDim]; omega)
      (conv1dNB 256 1 G.down_conversion_w 1 0 xv)
  let x5 :=
    instanceNorm1d P G.down_conversion_norm_g G.down_conversion_norm_b x4
  let x6 := Generator.bottleneck P G x5 c_onehot
  let x7 : Tensor3 N 2304 k :=
    cast3 rfl (by simp only [convDim]; omega)
      (conv1dNB 2304 1 G.up_conversion_w 1 0 x6)
  let xw := view34Core 256 9 k x7 (by ring)
  let u1 : Tensor4 N 128 18 (2 * k) :=
    cast4 rfl (by decide) (by simp only [convTDim]; omega)
      (usForward P 128 G.up_sample_1 1 1 2 2 xw)
  let u2 : Tensor4 N 64 36 (4 * k) :=
    cast4 rfl (by decide) (by simp only [convTDim]; omega)
      (usForward P 64 G.up_sample_2 1 1 2 2 u1)
  cast4 rfl (by decide) (by simp only [convDim]; omega)
    (conv2dNB 1 5 15 G.out_w 1 1 2 7 u2)

/-- Parameters of `Discriminator` (`num_speakers = ns`). -/
structure DiscriminatorParams (ns : ℕ) where
  conv_layer_1_w : Fin 128 → Fin 1 → Fin 3 → Fin 3 → ℚ
  conv_layer_1_b : Fin 128 → ℚ
  conv_gated_1_w : Fin 128 → Fin 1 → Fin 3 → Fin 3 → ℚ
  conv_gated_1_b : Fin 128 → ℚ
  down_sample_1 : DownsampleBlockParams 64 256 3 3
  down_sample_2 : DownsampleBlockParams 128 512 3 3
  down_sample_3 : DownsampleBlockParams 256 1024 3 3
  down_sample_4 : DownsampleBlockParams 512 1024 1 5
  fully_connected_w : Fin 1 → Fin 512 → ℚ
  fully_connected_b : Fin 1 → ℚ
  projection_w : Fin 512 → Fin (ns * 2) → ℚ
  projection_b : Fin 512 → ℚ

/-- The discriminator pipeline up to (and including) `down_sample_4`:
initial double-gated conv, then the four down-sample blocks. -/
def Discriminator.lastBlock (P : Prims) {ns N H W : ℕ}
    (D : DiscriminatorParams ns) (x : Tensor4 N 1 H W) :=
  let x1 :=
    glu4 P.sigmoid 64
        (conv2d 128 3 3 D.conv_layer_1_w D.conv_layer_1_b 1 1 1 1 x) *
      tmap4 P.sigmoid
        (glu4 P.sigmoid 64
          (conv2d 128 3 3 D.conv_gated_1_w D.conv_gated_1_b 1 1 1 1 x))
  let x2 := dsForward P 128 D.down_sample_1 2 2 1 1 x1
  let x3 := dsForward P 256 D.down_sample_2 2 2 1 1 x2
  let x4 := dsForward P 512 D.down_sample_3 2 2 1 1 x3
  dsForward P 512 D.down_sample_4 1 1 0 2 x4

/-- `Discriminator.forward`: sum pooling of the last block's output over
both spatial dimensions, a fully connected score, plus the inner-product
projection term `sum(projection(c_onehot) * h, dim=1)`. -/
def Discriminator.forward (P : Prims) {ns N H W : ℕ}
    (D : DiscriminatorParams ns) (x : Tensor4 N 1 H W)
    (c c_ : Tensor2 N ns) : Tensor2 N 1 :=
  let c_onehot : Tensor2 N (ns * 2) := cast2 (by omega) (cat2 c c_)
  let h := sumPool (Discriminator.lastBlock P D x)
  let s := linear 1 D.fully_connected_w D.fully_connected_b h
  let p := linear 512 D.projection_w D.projection_b c_onehot
  fun n j => s n j + ∑ i : Fin 512, p n i * h n i

/-- A call to `DownsampleBlock.forward` as a state transformer on the
module's parameters: the body reads attributes and assigns only local
variables, so the parameter state the call returns is whatever the body
wrote to it — here, nothing. -/
def dsCall (P : Prims) (Ch : ℕ) {N dimIn H W KH KW : ℕ}
    (B : DownsampleBlockParams dimIn (2 * Ch) KH KW) (sh sw ph pw : ℕ)
    (x : Tensor4 N dimIn H W) :
    DownsampleBlockParams dimIn (2 * Ch) KH KW ×
      Tensor4 N Ch (convDim H ph KH sh) (convDim W pw KW sw) :=
  (B, dsForward P Ch B sh sw ph pw x)

/-- A call to `UpSampleBlock.forward` as a state transformer on the
module's parameters. -/
def usCall (P : Prims) (Ch : ℕ) {N dimIn H W KH KW : ℕ}
    (U : UpSampleBlockParams dimIn (4 * (2 * Ch)) KH KW) (sh sw ph pw : ℕ)
    (x : Tensor4 N dimIn H W) :
    UpSampleBlockParams dimIn (4 * (2 * Ch)) KH KW ×
      Tensor4 N Ch (2 * convTDim H sh KH ph) (2 * convTDim W sw KW pw) :=
  (U, usForward P Ch U sh sw ph pw x)

/-- A call to `AdaptiveInstanceNormalization.forward` as a state
transformer on the module's parameters. -/
def adainCall (sq : ℚ → ℚ) (C : ℕ) {N S T : ℕ} (A : AdaINParams C S)
    (x : Tensor3 N C T) (c : Tensor2 N S) :
    AdaINParams C S × Tensor3 N C T :=
  (A, adainForward sq C A x c)

/-- A call to `ConditionalInstanceNormalisation.forward` as a state
transformer on the module's parameters. -/
def cinCall (sq : ℚ → ℚ) (C : ℕ) {N S T : ℕ} (R : CINParams C S)
    (x : Tensor3 N C T) (c : Tensor2 N S) :
    CINParams C S × Tensor3 N C T :=
  (R, cinForward sq C R x c)

/-- A call to `ResidualBlock.forward` as a state transformer on the
module's parameters. -/
def resCall (P : Prims) {S N T : ℕ} (R : ResidualBlockParams S)
    (x : Tensor3 N 256 T) (c_ : Tensor2 N S) :
    ResidualBlockParams S × Tensor3 N 256 T :=
  (R, resForward P R x c_)

/-- A call to `Generator.forward` as a state transformer on the module's
parameters. -/
def genCall (P : Prims) {ns N k : ℕ} (G : GeneratorParams ns)
    (x : Tensor4 N 1 36 (4 * k)) (c c_ : Tensor2 N ns) :
    GeneratorParams ns × Option (Tensor4 N 1 35 (4 * k)) :=
  (G, Generator.forward P G x c c_)

/-- A call to `Discriminator.forward` as a state transformer on the
module's parameters. -/
def discCall (P : Prims) {ns N H W : ℕ} (D : DiscriminatorParams ns)
    (x : Tensor4 N 1 H W) (c c_ : Tensor2 N ns) :
    DiscriminatorParams ns × Tensor2 N 1 :=
  (D, Discriminator.forward P D x c c_)

/-- Height of the generator's feature map after `conv_layer_1` (kernel
height 5, padding 2, stride 1) and the two down-sample blocks (kernel
5, padding 2, stride 2 each), as a function of the input height. -/
def genDownH (H : ℕ) : ℕ := convDim (convDim (convDim H 2 5 1) 2 5 2) 2 5 2

/-- Width of the generator's feature map after `conv_layer_1` (kernel
width 15, padding 7, stride 1) and the two down-sample blocks, as a
function of the input width. -/
def genDownW (W : ℕ) : ℕ := convDim (convDim (convDim W 7 15 1) 2 5 2) 2 5 2

/-- Success condition of `x.contiguous().view(-1, 2304, width_size // 4)`
under the library's batch-inference semantics: the product of the known
dimensions is positive and divides the element count.  The element
count after the two down-sample blocks is `Nb * 256 * genDownH H *
genDownW W` (256 channels after the final GLU). -/
def genReshape1OK (Nb H W : ℕ) : Prop :=
  0 < 2304 * (W / 4) ∧
    2304 * (W / 4) ∣ Nb * (256 * (genDownH H * genDownW W))

/-- The batch dimension the library infers for the `-1` of the first
view. -/
def genInferredBatch (Nb H W : ℕ) : ℕ :=
  Nb * (256 * (genDownH H * genDownW W)) / (2304 * (W / 4))

/-- Success condition of `x.view(-1, 256, 9, width_size // 4)` applied
after `up_conversion` (2304 channels, time length `W // 4`, batch as
inferred by the first view). -/
def genReshape2OK (Nb H W : ℕ) : Prop :=
  0 < 256 * (9 * (W / 4)) ∧
    256 * (9 * (W / 4)) ∣ genInferredBatch Nb H W * (2304 * (W / 4))

/-- Both reshape operations of `Generator.forward` succeed. -/
def genReshapesOK (Nb H W : ℕ) : Prop :=
  genReshape1OK Nb H W ∧ genReshape2OK Nb H W

theorem convDim_w15 (w : ℕ) : convDim w 7 15 1 = w := by
  simp only [convDim]; omega

theorem convDim_quad (k : ℕ) : convDim (4 * k) 2 5 2 = 2 * k := by
  simp only [convDim]; omega

theorem convDim_half (k : ℕ) : convDim (2 * k) 2 5 2 = k := by
  simp only [convDim]; omega

theorem genDownH_36 : genDownH 36 = 9 := by decide

theorem genDownW_mul4 (k : ℕ) : genDownW (4 * k) = k := by
  unfold genDownW
  rw [convDim_w15, convDim_quad, convDim_half]

theorem view43_eq_some {N C H W : ℕ} (Cp Tp : ℕ) (x : Tensor4 N C H W)
    (hs : C * (H * W) = Cp * Tp) :
    view43 Cp Tp x = some (view43Core Cp Tp x hs) := dif_pos hs

theorem view34_eq_some {N C T : ℕ} (Cp Hp Wp : ℕ) (x : Tensor3 N C T)
    (hs : C * T = Cp * (Hp * Wp)) :
    view34 Cp Hp Wp x = some (view34Core Cp Hp Wp x hs) := dif_pos hs

theorem generator_preOut_eq (P : Prims) {ns N k : ℕ}
    (G : GeneratorParams ns) (x : Tensor4 N 1 36 (4 * k))
    (c c_ : Tensor2 N ns) :
    Generator.preOut P G x c c_ =
      some (Generator.preOutTotal P G x c c_) := by
  have h1 : (256 : ℕ) * (9 * k) = 2304 * k := by ring
  simp only [Generator.preOut, Generator.preOutTotal,
    view43_eq_some _ _ _ h1, Option.some_bind]
  rw [view34_eq_some 256 9 k _ (by ring)]
  rfl

/-- C1: for every batch size N, every width that is a multiple of 4
(written `4 * k`), every input of shape (N, 1, 36, 4k) and condition
vectors of shape (N, num_speakers), `Generator.forward` completes and
returns the tensor of shape (N, 1, 35, 4k) — enforced by the return
type `Tensor4 N 1 35 (4*k)` — obtained by cropping the last of the 36
frequency rows of the pre-output (`out[:, :, :-1, :]`). -/
theorem C1_generator_forward_shape_and_crop (P : Prims) {ns : ℕ}
    (G : GeneratorParams ns) (N k : ℕ) (x : Tensor4 N 1 36 (4 * k))
    (c c_ : Tensor2 N ns) :
    Generator.forward P G x c c_ =
      some (cropLastRow (Generator.preOutTotal P G x c c_)) := by
  unfold Generator.forward
  rw [generator_preOut_eq]
  rfl

/-- C2: for every input of shape (N, 1, H, W) and condition vectors of
shape (N, num_speakers), `Discriminator.forward` returns the tensor of
shape (N, 1) — enforced by the return type `Tensor2 N 1` — equal to
`fully_connected(h) + sum(projection(cat(c, c_, dim=1)) * h, dim=1)`
where `h` is the sum over both spatial dimensions of the last
down-sample block's output. -/
theorem C2_discriminator_score (P : Prims) {ns N H W : ℕ}
    (D : DiscriminatorParams ns) (x : Tensor4 N 1 H W)
    (c c_ : Tensor2 N ns) :
    Discriminator.forward P D x c c_ =
      fun n j =>
        linear 1 D.fully_connected_w D.fully_connected_b
            (sumPool (Discriminator.lastBlock P D x)) n j +
          ∑ i : Fin 512,
            linear 512 D.projection_w D.projection_b
                (cast2 (by omega) (cat2 c c_)) n i *
              sumPool (Discriminator.lastBlock P D x) n i := rfl

/-- C3: the value of `Generator.forward` is independent of the
parameters of `residual_3` … `residual_9` (replacing all seven by
arbitrary parameters leaves the output unchanged on every input), and
the bottleneck applies `residual_1` eight times in total — once before
`residual_2` and then seven more times, written with `^[7]` — and
`residual_2` exactly once. -/
theorem C3_generator_unused_residuals (P : Prims) {ns N k : ℕ}
    (G : GeneratorParams ns)
    (r3 r4 r5 r6 r7 r8 r9 : ResidualBlockParams (ns * 2))
    (x : Tensor4 N 1 36 (4 * k)) (c c_ : Tensor2 N ns) :
    Generator.forward P
        { G with residual_3 := r3, residual_4 := r4, residual_5 := r5,
                 residual_6 := r6, residual_7 := r7, residual_8 := r8,
                 residual_9 := r9 } x c c_ =
      Generator.forward P G x c c_ ∧
    ∀ (T : ℕ) (y : Tensor3 N 256 T) (co : Tensor2 N (ns * 2)),
      Generator.bottleneck P G y co =
        (fun z => resForward P G.residual_1 z co)^[7]
          (resForward P G.residual_2 (resForward P G.residual_1 y co) co) :=
  ⟨rfl, fun _ _ _ => rfl⟩

/-- C4: `ResidualBlock.forward(x, c_)` is the residual skip connection
`x + GLU(AdaIN(Conv1d(x), c_))`, in exactly that order, and the output
has the same shape (N, 256, T) as the input — enforced by the return
type of `resForward`. -/
theorem C4_residual_block (P : Prims) {S N T : ℕ}
    (R : ResidualBlockParams S) (x : Tensor3 N 256 T)
    (c_ : Tensor2 N S) :
    resForward P R x c_ =
      x + glu3 P.sigmoid 256
          (adainForward P.sqrt 512 R.adain
            (cast3 rfl (by simp only [convDim]; omega)
              (conv1d 512 5 R.conv_layer_w R.conv_layer_b 1 2 x)) c_) := rfl

/-- C5: `AdaptiveInstanceNormalization.forward(x, c)` normalizes each
sample and channel over the time dimension using the mean `u` and the
biased variance `var`, and returns
`(1 + gamma) * (x - u) / sqrt(var + 1e-8) + beta`, where `gamma` and
`beta` are the two equal halves, along dim 1, of the linear map `fc(c)`
(lower half `gamma`, upper half `beta`). -/
theorem C5_adain_formula (sq : ℚ → ℚ) (C : ℕ) {N S T : ℕ}
    (A : AdaINParams C S) (x : Tensor3 N C T) (c : Tensor2 N S) :
    adainForward sq C A x c =
      fun n ch t =>
        let h := linear (2 * C) A.fc_w A.fc_b c
        let u := (∑ s : Fin T, x n ch s) / (T : ℕ)
        let vr := (∑ s : Fin T, (x n ch s - u) * (x n ch s - u)) / (T : ℕ)
        (1 + h n (finLow C ch)) * (x n ch t - u) / sq (vr + 1e-8) +
          h n (finHigh C ch) := rfl

/-- C6: on every input satisfying the shape preconditions (enforced by
the tensor types), both forward passes complete and return a value: the
generator's two `view` reshapes — the only data-dependent checks — both
succeed, and the discriminator's pass is built from total operations
only.  No other error or recovery path exists in the embedding, exactly
as in the source. -/
theorem C6_forward_total (P : Prims) {ns N k M H W : ℕ}
    (G : GeneratorParams ns) (D : DiscriminatorParams ns)
    (x : Tensor4 N 1 36 (4 * k)) (c c_ : Tensor2 N ns)
    (y : Tensor4 M 1 H W) (d d_ : Tensor2 M ns) :
    (∃ out, Generator.forward P G x c c_ = some out) ∧
      (∃ sc, Discriminator.forward P D y d d_ = sc) := by
  constructor
  · refine ⟨cropLastRow (Generator.preOutTotal P G x c c_), ?_⟩
    unfold Generator.forward
    rw [generator_preOut_eq]
    rfl
  · exact ⟨Discriminator.forward P D y d d_, rfl⟩

/-- C7: every forward pass, viewed as a state transformer on the
module's parameters, returns the parameter state unchanged: no forward
body in the source assigns to any attribute or buffer (the only
in-place update, `x += …` in `Discriminator.forward`, rebinds a local
tensor freshly produced by `fully_connected`), so after the call the
module parameters hold exactly the values they held before, and only a
fresh output is produced. -/
theorem C7_no_side_effects (P : Prims) (sq : ℚ → ℚ)
    {ns N k M H W : ℕ}
    {dimIn H1 W1 KH KW dimIn2 H2 W2 KH2 KW2 C S T : ℕ} (Ch Ch2 : ℕ)
    (B : DownsampleBlockParams dimIn (2 * Ch) KH KW)
    (U : UpSampleBlockParams dimIn2 (4 * (2 * Ch2)) KH2 KW2)
    (A : AdaINParams C S) (Rc : CINParams C S)
    (Rb : ResidualBlockParams S)
    (G : GeneratorParams ns) (D : DiscriminatorParams ns)
    (sh sw ph pw sh2 sw2 ph2 pw2 : ℕ)
    (x1 : Tensor4 N dimIn H1 W1) (x2 : Tensor4 N dimIn2 H2 W2)
    (x3 : Tensor3 N C T) (cs : Tensor2 N S) (x4 : Tensor3 N 256 T)
    (xg : Tensor4 N 1 36 (4 * k)) (c c_ : Tensor2 N ns)
    (xd : Tensor4 M 1 H W) (d d_ : Tensor2 M ns) :
    (dsCall P Ch B sh sw ph pw x1).1 = B ∧
      (usCall P Ch2 U sh2 sw2 ph2 pw2 x2).1 = U ∧
      (adainCall sq C A x3 cs).1 = A ∧
      (cinCall sq C Rc x3 cs).1 = Rc ∧
      (resCall P Rb x4 cs).1 = Rb ∧
      (genCall P G xg c c_).1 = G ∧
      (discCall P D xd d d_).1 = D :=
  ⟨rfl, rfl, rfl, rfl, rfl, rfl, rfl⟩

/-- C8: every forward pass is deterministic at fixed parameters: a
second call on the same inputs, made in the parameter state the first
call returned, yields the same output as the first call — the result is
a function of the input and weight tensors only, with no hidden state
or call-history dependence. -/
theorem C8_deterministic (P : Prims) (sq : ℚ → ℚ)
    {ns N k M H W : ℕ}
    {dimIn H1 W1 KH KW dimIn2 H2 W2 KH2 KW2 C S T : ℕ} (Ch Ch2 : ℕ)
    (B : DownsampleBlockParams dimIn (2 * Ch) KH KW)
    (U : UpSampleBlockParams dimIn2 (4 * (2 * Ch2)) KH2 KW2)
    (A : AdaINParams C S) (Rc : CINParams C S)
    (Rb : ResidualBlockParams S)
    (G : GeneratorParams ns) (D : DiscriminatorParams ns)
    (sh sw ph pw sh2 sw2 ph2 pw2 : ℕ)
    (x1 : Tensor4 N dimIn H1 W1) (x2 : Tensor4 N dimIn2 H2 W2)
    (x3 : Tensor3 N C T) (cs : Tensor2 N S) (x4 : Tensor3 N 256 T)
    (xg : Tensor4 N 1 36 (4 * k)) (c c_ : Tensor2 N ns)
    (xd : Tensor4 M 1 H W) (d d_ : Tensor2 M ns) :
    (dsCall P Ch (dsCall P Ch B sh sw ph pw x1).1 sh sw ph pw x1).2 =
        (dsCall P Ch B sh sw ph pw x1).2 ∧
      (usCall P Ch2 (usCall P Ch2 U sh2 sw2 ph2 pw2 x2).1
          sh2 sw2 ph2 pw2 x2).2 =
        (usCall P Ch2 U sh2 sw2 ph2 pw2 x2).2 ∧
      (adainCall sq C (adainCall sq C A x3 cs).1 x3 cs).2 =
        (adainCall sq C A x3 cs).2 ∧
      (cinCall sq C (cinCall sq C Rc x3 cs).1 x3 cs).2 =
        (cinCall sq C Rc x3 cs).2 ∧
      (resCall P (resCall P Rb x4 cs).1 x4 cs).2 =
        (resCall P Rb x4 cs).2 ∧
      (genCall P (genCall P G xg c c_).1 xg c c_).2 =
        (genCall P G xg c c_).2 ∧
      (discCall P (discCall P D xd d d_).1 xd d d_).2 =
        (discCall P D xd d d_).2 :=
  ⟨rfl, rfl, rfl, rfl, rfl, rfl, rfl⟩

/-- C9 (amended): for height exactly 36 and width a positive multiple
of 4, the tensor after the two down-sample blocks has exactly
`2304 * (W // 4)` elements per sample, so the reshape to
`(-1, 2304, W // 4)` is size-consistent, and the reshape of the
up-converted tensor to `(-1, 256, 9, W // 4)` is size-consistent as
well (256 * 9 = 2304): both view operations succeed.  (The original
claim's assertion that the forward pass is well-defined *only* for such
inputs is refuted separately: the precondition is sufficient but not
necessary.) -/
theorem C9_reshapes_succeed_at_h36 (Nb k : ℕ) (hk : 1 ≤ k) :
    256 * (genDownH 36 * genDownW (4 * k)) = 2304 * ((4 * k) / 4) ∧
      genReshapesOK Nb 36 (4 * k) := by
  have hW : genDownW (4 * k) = k := genDownW_mul4 k
  have hH : genDownH 36 = 9 := genDownH_36
  have h4 : (4 * k) / 4 = k := by omega
  have he : 256 * (9 * k) = 2304 * k := by ring
  refine ⟨by rw [hW, hH, h4, he], ?_⟩
  unfold genReshapesOK genReshape1OK genReshape2OK genInferredBatch
  rw [hW, hH, h4, he]
  refine ⟨⟨by omega, ⟨Nb, by ring⟩⟩, ⟨by omega, ?_⟩⟩
  rw [Nat.mul_div_cancel Nb (show 0 < 2304 * k by omega)]
  exact ⟨Nb, by ring⟩

/-- Witness for the amended C9 at Nb = 5, k = 1 (width 4). -/
theorem C9_reshapes_succeed_at_h36_witness :
    1 ≤ 1 ∧
      (256 * (genDownH 36 * genDownW (4 * 1)) = 2304 * ((4 * 1) / 4) ∧
        genReshapesOK 5 36 (4 * 1)) :=
  ⟨by decide, C9_reshapes_succeed_at_h36 5 1 (by decide)⟩

/-- Counterexample to C9 as stated: the precondition "height exactly 36
and width divisible by 4" is not necessary.  At input shape
(1, 1, 72, 4) — height 72, not 36 — and at (1, 1, 36, 5) — width 5 not
divisible by 4 — both view operations also succeed (the library infers
a different batch for the `-1` dimension), so the forward pass is
well-defined there too. -/
theorem C9_precondition_not_necessary :
    genReshapesOK 1 72 4 ∧ genReshapesOK 1 36 5 ∧ 72 ≠ 36 ∧ 5 % 4 ≠ 0 := by
  unfold genReshapesOK genReshape1OK genReshape2OK genInferredBatch
    genDownH genDownW
  decide

/-- C10: `DownsampleBlock.forward(x)` is
`GLU(InstanceNorm(conv_layer(x))) * sigmoid(GLU(InstanceNorm(conv_gated(x))))`
and `UpSampleBlock.forward(x)` is
`GLU(PixelShuffle(deconv_layer(x))) * sigmoid(GLU(PixelShuffle(deconv_gated(x))))`:
the elementwise product of one gated branch with the sigmoid of a
second, independently parameterized gated branch. -/
theorem C10_blocks_double_gated (P : Prims)
    {N dimIn H W KH KW dimIn2 H2 W2 KH2 KW2 : ℕ} (Ch Ch2 : ℕ)
    (B : DownsampleBlockParams dimIn (2 * Ch) KH KW)
    (U : UpSampleBlockParams dimIn2 (4 * (2 * Ch2)) KH2 KW2)
    (sh sw ph pw sh2 sw2 ph2 pw2 : ℕ)
    (x : Tensor4 N dimIn H W) (y : Tensor4 N dimIn2 H2 W2) :
    dsForward P Ch B sh sw ph pw x =
        glu4 P.sigmoid Ch
            (instanceNorm2d P B.conv_layer_norm_g B.conv_layer_norm_b
              (conv2dNB (2 * Ch) KH KW B.conv_layer_w sh sw ph pw x)) *
          tmap4 P.sigmoid
            (glu4 P.sigmoid Ch
              (instanceNorm2d P B.conv_gated_norm_g B.conv_gated_norm_b
                (conv2dNB (2 * Ch) KH KW B.conv_gated_w sh sw ph pw x))) ∧
      usForward P Ch2 U sh2 sw2 ph2 pw2 y =
        glu4 P.sigmoid Ch2
            (pixelShuffle2 (2 * Ch2)
              (convT2d (4 * (2 * Ch2)) KH2 KW2 U.conv_layer_w
                sh2 sw2 ph2 pw2 y)) *
          tmap4 P.sigmoid
            (glu4 P.sigmoid Ch2
              (pixelShuffle2 (2 * Ch2)
                (convT2d (4 * (2 * Ch2)) KH2 KW2 U.conv_gated_w
                  sh2 sw2 ph2 pw2 y))) :=
  ⟨rfl, rfl⟩
